import Mathlib

/-!
Shallow embedding of the PublicaMundi DataAPI query compiler and execution
engine (src/publicamundi/data/api/base.py) and proofs about the claims of
its specification.  Python dictionaries are modelled as association lists
where insertion prepends (so the first lookup match is the latest write),
dynamic values as small inductive types, raised exceptions as Except, and
machine numbers as Int (the code only compares and clamps them).
-/

namespace PublicaMundi

/-! ### Constants (base.py lines 22-60) -/

def MAX_RESULT_ROWS : Int := 10000

def CRS_DEFAULT_DATABASE : Int := 2100

def CRS_DEFAULT_OUTPUT : Int := 3857

def DEFAULT_SQL_TIMEOUT : Int := 30000

/-- A dynamically typed request value, as far as the limit and offset
handling needs it: a number, a string, or some other JSON value. -/
inductive PyVal where
  | num (n : Int)
  | str (s : String)
  | list
deriving DecidableEq, Repr

/-! ### Limit and offset (base.py lines 186-212)

The source initializes limit to MAX_RESULT_ROWS and offset to 0, checks
that a supplied value is a number (raising a DataException otherwise) and
replaces the default only when the supplied number is inside the accepted
range. -/

def parseLimit (v : Option PyVal) : Except String Int :=
  match v with
  | none => Except.ok MAX_RESULT_ROWS
  | some (PyVal.num n) =>
      Except.ok (if n < MAX_RESULT_ROWS ∧ 0 < n then n else MAX_RESULT_ROWS)
  | some _ => Except.error "Parameter limit must be a number."

def parseOffset (v : Option PyVal) : Except String Int :=
  match v with
  | none => Except.ok 0
  | some (PyVal.num n) => Except.ok (if 0 ≤ n then n else 0)
  | some _ => Except.error "Parameter offset must be a number."

/-! ### Statement timeout (base.py line 500)

command_timeout = max(int(timeout - elapsed_time * 1000), 1000), where
timeout is the configured total budget in milliseconds and elapsed_time
the accumulated seconds; we take the elapsed milliseconds as an integer
input. -/

def commandTimeout (timeout : Int) (elapsedMs : Int) : Int :=
  max (timeout - elapsedMs) 1000

/-! ### Cumulative batch timeout check (base.py lines 185 and 498-511)

Line 185 reads the configured timeout with a default:
  timeout = config['timeout'] if 'timeout' in config else 30000.
Line 508 however reads config['timeout'] directly; when the key is absent
this raises KeyError, which the generic handler in execute (line 164)
converts into DataException with message "Unhandled exception has
occured.".  The configuration is modelled by its optional timeout entry,
elapsed time in seconds by a rational. -/

structure PyConfig where
  timeout : Option Int
deriving DecidableEq, Repr

def configTimeoutOrDefault (c : PyConfig) : Int :=
  match c.timeout with
  | some t => t
  | none => DEFAULT_SQL_TIMEOUT

def checkCumulativeTimeout (c : PyConfig) (elapsed : ℚ) : Except String Unit :=
  match c.timeout with
  | none => Except.error "Unhandled exception has occured."
  | some t =>
      if ((t / 1000 : Int) : ℚ) ≤ elapsed then
        Except.error "Execution timeout has expired."
      else
        Except.ok ()

/-- Modelled from the spec: the cumulative check as the spec describes it,
with the absent timeout key behaving as the default 30000 ms.  Used only
to contrast with checkCumulativeTimeout, which follows the source. -/
def specCheckCumulativeTimeout (c : PyConfig) (elapsed : ℚ) : Except String Unit :=
  if ((configTimeoutOrDefault c / 1000 : Int) : ℚ) ≤ elapsed then
    Except.error "Execution timeout has expired."
  else
    Except.ok ()

/-! ### Catalog resources and batch metadata (base.py lines 79, 222-280, 1008-1018)

A resource stub as produced by getResources carries eight attributes
(lines 1009-1018); query compilation later stores four more entries in the
very same dictionary (lines 255-263): the per-batch table alias, the srid,
the geometry column and the field map.  Absent keys are modelled as none. -/

structure DbField where
  name : String
  ftype : String
deriving DecidableEq, Repr

structure ResourceStub where
  table : String
  resource_name : String
  package_title : String
  package_notes : String
  wms : Option String
  wms_server : Option String
  wms_layer : Option String
  geometry_type : String
  tableAlias : Option String := none
  srid : Option Int := none
  geometry_column : Option String := none
  fields : Option (List DbField) := none
deriving DecidableEq, Repr

/-- The result of describeResource for one resource: srid and geometry
column of the single geometry column (if any) and the field list. -/
structure Descriptor where
  srid : Option Int
  geometry_column : Option String
  fields : List DbField
deriving DecidableEq, Repr

/-- The eight attributes a stub has when getResources returns it. -/
def originalAttrs (s : ResourceStub) :
    String × String × String × String ×
      Option String × Option String × Option String × String :=
  (s.table, s.resource_name, s.package_title, s.package_notes,
   s.wms, s.wms_server, s.wms_layer, s.geometry_type)

/-- Python dictionary assignment to an existing key, on an association
list representation: the pair with the given key is replaced in place. -/
def updateAssoc (l : List (String × ResourceStub)) (k : String)
    (v : ResourceStub) : List (String × ResourceStub) :=
  l.map (fun p => if p.1 == k then (k, v) else p)

/-- One iteration of the resource loop of _execute_query restricted to the
metadata bookkeeping (lines 252-266): context['metadata'][name] is the very
dictionary stored in context['resources'][name], so the in-place update of
the stub is visible through the resources map; the metadata cache itself is
represented by its ordered key list.  On first reference the stub receives
the alias t(len(metadata)+1) and the introspected descriptor. -/
def processResourceMetadata (resources : List (String × ResourceStub))
    (metaKeys : List String) (name : String) (d : Descriptor) :
    Except String (List (String × ResourceStub) × List String) :=
  match List.lookup name resources with
  | none => Except.error ("Resource " ++ name ++ " does not exist.")
  | some s =>
      if metaKeys.contains name then
        Except.ok (resources, metaKeys)
      else
        let s2 := { s with
          tableAlias := some ("t" ++ toString (metaKeys.length + 1)),
          srid := d.srid,
          geometry_column := d.geometry_column,
          fields := some d.fields }
        Except.ok (updateAssoc resources name s2, metaKeys ++ [name])

/-! ### Shared mutable default metadata (base.py line 79)

execute is declared as def execute(self, config, query, metadata={}):
the default dictionary is created once and shared by every invocation that
does not pass an explicit metadata argument, and _execute_query stores each
newly introspected resource into it (line 266).  For alias numbering only
the ordered key list matters: a resource absent from the cache is appended
and its alias index is the new length. -/

def addResourceToMetadata (meta : List String) (r : String) : List String :=
  if meta.contains r then meta else meta ++ [r]

/-- The t-alias a resource carries, determined by its insertion position
in the metadata cache (line 257: alias = t(len(metadata.keys()) + 1),
assigned when the resource is appended). -/
def aliasOf (meta : List String) (r : String) : Option String :=
  (meta.indexOf? r).map (fun i => "t" ++ toString (i + 1))

/-- The metadata key list after one batch: every resource referenced by
every query of the queue is added on first reference. -/
def runBatchMeta (meta0 : List String) (queue : List (List String)) :
    List String :=
  queue.foldl (fun m q => q.foldl addResourceToMetadata m) meta0

/-- Python call semantics of the mutable default argument: successive
invocations of execute without an explicit metadata argument all use and
mutate the same dictionary.  Returns the metadata each call ends with. -/
def runCallsShared (d0 : List String) :
    List (List (List String)) → List (List String)
  | [] => []
  | b :: bs =>
      let d1 := runBatchMeta d0 b
      d1 :: runCallsShared d1 bs

/-! ### Resource reference parsing and the resource mapping
(base.py lines 222-280)

Each entry of query['resources'] is a string (name = alias) or a
dictionary with a mandatory name and an optional alias; the loop records
both name -> name and alias -> name in resource_mapping (dictionary
writes, so a later entry overwrites an earlier one with the same key) and
requires the name to exist in the catalog. -/

inductive ResourceRef where
  | str (name : String)
  | obj (name : Option String) (al : Option String)
  | other
deriving DecidableEq, Repr

def extractNameAlias : ResourceRef → Except String (String × String)
  | ResourceRef.obj none _ => Except.error "Resource name is missing."
  | ResourceRef.obj (some n) al => Except.ok (n, al.getD n)
  | ResourceRef.str s => Except.ok (s, s)
  | ResourceRef.other =>
      Except.error
        "Resource parameter is malformed. Instance of string or dictionary is expected."

def parseQueryResourcesGo (catalog : List String) :
    List ResourceRef → List (String × String) → List String →
      Except String (List (String × String) × List String)
  | [], mapping, qm => Except.ok (mapping, qm)
  | r :: rest, mapping, qm =>
      match extractNameAlias r with
      | Except.error e => Except.error e
      | Except.ok (n, a) =>
          let mapping := (a, n) :: (n, n) :: mapping
          if catalog.contains n then
            parseQueryResourcesGo catalog rest mapping
              (if qm.contains n then qm else qm ++ [n])
          else
            Except.error ("Resource " ++ n ++ " does not exist.")

/-- The resource loop of _execute_query, restricted to the resource
mapping and the set of resources the query accesses (query_metadata
keys). -/
def parseQueryResources (catalog : List String) (refs : List ResourceRef) :
    Except String (List (String × String) × List String) :=
  parseQueryResourcesGo catalog refs [] []

/-! ### Query metadata used during compilation

During compilation of one query, query_metadata maps each referenced
resource name to its introspected descriptor; only the parts read by
field resolution and SQL lowering are modelled: the physical table, the
per-batch alias, srid, geometry column and field map. -/

structure ResourceMeta where
  table : String
  tableAlias : String
  srid : Option Int
  geometry_column : Option String
  fields : List DbField
deriving DecidableEq, Repr

/-- f['name'] in metadata[r]['fields'] : the fields dictionary is keyed by
field name. -/
def fieldInResource (m : ResourceMeta) (n : String) : Bool :=
  (m.fields.find? (fun df => df.name == n)).isSome

/-- metadata[mapping[r]] with both dictionary lookups. -/
def metaLookup (metadata : List (String × ResourceMeta))
    (mapping : List (String × String)) (r : String) : Option ResourceMeta :=
  match List.lookup r mapping with
  | none => none
  | some n => List.lookup n metadata

/-- _get_resources_by_field_name (base.py lines 935-942): the referenced
resources whose field map contains the given field name. -/
def getResourcesByFieldName (metadata : List (String × ResourceMeta))
    (field : String) : List String :=
  (metadata.filter (fun p => fieldInResource p.2 field)).map (fun p => p.1)

/-- A filter argument: a field reference dictionary, a decoded geometry
literal (carried by the WKT that shapely.wkt.dumps would produce), a
numeric literal or a string literal (spatial comparison tokens arrive as
plain strings). -/
inductive FilterArg where
  | fieldRef (name : String) (resource : Option String)
  | geom (wkt : String)
  | num (n : Int)
  | str (s : String)
deriving DecidableEq, Repr

/-- _is_field (base.py lines 878-909).  Returns the flag together with the
(possibly updated) argument: when the resource is missing and inference
finds exactly one resource containing the field, the source writes the
inferred name back into the argument dictionary (line 899).  A failing
dictionary lookup that Python would turn into a KeyError surfaces through
the generic handler of execute as the unhandled-exception message. -/
def isFieldCheck (metadata : List (String × ResourceMeta))
    (mapping : List (String × String)) (f : FilterArg) :
    Except String (Bool × FilterArg) :=
  match f with
  | FilterArg.fieldRef name res =>
      match res with
      | some r =>
          match metaLookup metadata mapping r with
          | none => Except.error ("Resource " ++ r ++ " does not exist.")
          | some m =>
              if fieldInResource m name then
                Except.ok (true, FilterArg.fieldRef name (some r))
              else
                Except.error ("Field " ++ name ++
                  " does not belong to resource " ++ r ++ ".")
      | none =>
          match getResourcesByFieldName metadata name with
          | [] => Except.error ("Field " ++ name ++ " does not exist.")
          | [r0] =>
              match metaLookup metadata mapping r0 with
              | none => Except.error "Unhandled exception has occured."
              | some m =>
                  if fieldInResource m name then
                    Except.ok (true, FilterArg.fieldRef name (some r0))
                  else
                    Except.error ("Field " ++ name ++
                      " does not belong to resource " ++ r0 ++ ".")
          | rs => Except.error ("Field " ++ name ++
              " is ambiguous for resources " ++ String.intercalate "," rs ++ ".")
  | _ => Except.ok (false, f)

/-- _is_field_geom (base.py lines 917-924): a field whose name equals the
geometry_column of its resource. -/
def isFieldGeomCheck (metadata : List (String × ResourceMeta))
    (mapping : List (String × String)) (f : FilterArg) :
    Except String (Bool × FilterArg) :=
  match isFieldCheck metadata mapping f with
  | Except.error e => Except.error e
  | Except.ok (false, f2) => Except.ok (false, f2)
  | Except.ok (true, f2) =>
      match f2 with
      | FilterArg.fieldRef name (some r) =>
          match metaLookup metadata mapping r with
          | some m => Except.ok (m.geometry_column == some name, f2)
          | none => Except.error "Unhandled exception has occured."
      | _ => Except.error "Unhandled exception has occured."

/-- _get_field_srid (base.py lines 926-930). -/
def getFieldSridCheck (metadata : List (String × ResourceMeta))
    (mapping : List (String × String)) (f : FilterArg) :
    Except String (Option Int × FilterArg) :=
  match isFieldGeomCheck metadata mapping f with
  | Except.error e => Except.error e
  | Except.ok (false, f2) => Except.ok (none, f2)
  | Except.ok (true, f2) =>
      match f2 with
      | FilterArg.fieldRef _ (some r) =>
          match metaLookup metadata mapping r with
          | some m => Except.ok (m.srid, f2)
          | none => Except.error "Unhandled exception has occured."
      | _ => Except.error "Unhandled exception has occured."

/-- _is_geom (base.py lines 932-933): isinstance of a shapely geometry. -/
def isGeomLiteral : FilterArg → Bool
  | FilterArg.geom _ => true
  | _ => false

/-- The stanza repeated for each spatial argument in the source (for
example lines 684-689): arg_srid starts as the default database srid and
is replaced by the field srid when the argument is a geometry field. -/
def spatialArgInfo (metadata : List (String × ResourceMeta))
    (mapping : List (String × String)) (f : FilterArg) :
    Except String (Bool × Option Int × FilterArg) :=
  match isFieldGeomCheck metadata mapping f with
  | Except.error e => Except.error e
  | Except.ok (fg, f2) =>
      if fg then
        match getFieldSridCheck metadata mapping f2 with
        | Except.error e => Except.error e
        | Except.ok (s, f3) => Except.ok (true, s, f3)
      else
        Except.ok (false, some CRS_DEFAULT_DATABASE, f2)

/-! ### Spatial filter lowering (base.py lines 656-876)

Each lowering returns the SQL fragment together with the positional
parameter list.  Strings are assembled exactly as the source assembles
them with format and concatenation. -/

inductive SqlParam where
  | num (n : Int)
  | str (s : String)
deriving DecidableEq, Repr

/-- Membership of a spatial comparison token in SPATIAL_COMPARE_OPERATORS
together with COMPARE_EXPRESSIONS[COMPARE_OPERATORS.index(token)]
(base.py lines 46-49, 679-682, 719-722). -/
def cmpExprOfToken (t : String) : Option String :=
  if t == "EQUAL" then some "="
  else if t == "GREATER" then some ">"
  else if t == "GREATER_OR_EQUAL" then some ">="
  else if t == "LESS" then some "<"
  else if t == "LESS_OR_EQUAL" then some "<="
  else none

def cmpExprOfArg : FilterArg → Option String
  | FilterArg.str t => cmpExprOfToken t
  | _ => none

/-- The qualified field expression built in every spatial branch:
table_alias."field".  The lookups have already succeeded when the branch
runs; a missing entry would be a Python KeyError. -/
def aliasedFieldSql (metadata : List (String × ResourceMeta))
    (mapping : List (String × String)) (f : FilterArg) :
    Except String String :=
  match f with
  | FilterArg.fieldRef name (some r) =>
      match metaLookup metadata mapping r with
      | some m => Except.ok (m.tableAlias ++ ".\"" ++ name ++ "\"")
      | none => Except.error "Unhandled exception has occured."
  | _ => Except.error "Unhandled exception has occured."

/-- _create_filter_spatial_area (base.py lines 674-711). -/
def createFilterSpatialArea (metadata : List (String × ResourceMeta))
    (mapping : List (String × String)) (a1 a2 a3 : FilterArg) :
    Except String (String × List SqlParam) :=
  match cmpExprOfArg a2 with
  | none => Except.error "Expression for operator AREA is not valid."
  | some cmp =>
      match spatialArgInfo metadata mapping a1 with
      | Except.error e => Except.error e
      | Except.ok (fg1, srid1, a1x) =>
          if fg1 = false ∧ isGeomLiteral a1x = false then
            Except.error
              "First argument for operator AREA must be a geometry field or a GeoJSON encoded geometry."
          else
            match a3 with
            | FilterArg.num n3 =>
                if fg1 then
                  match aliasedFieldSql metadata mapping a1x with
                  | Except.error e => Except.error e
                  | Except.ok base =>
                      let e :=
                        if srid1 ≠ some CRS_DEFAULT_DATABASE then
                          "ST_Transform(" ++ base ++ ", 2100)"
                        else base
                      Except.ok ("(ST_Area(" ++ e ++ ") " ++ cmp ++ " %s)",
                        [SqlParam.num n3])
                else
                  match a1x with
                  | FilterArg.geom w =>
                      Except.ok
                        ("(ST_Area(ST_GeomFromText(%s, 3857)) " ++ cmp ++ " %s)",
                         [SqlParam.str w, SqlParam.num n3])
                  | _ => Except.error "Unhandled exception has occured."
            | _ => Except.error "Third argument for operator AREA must be number."

/-- _create_filter_spatial_distance (base.py lines 713-798). -/
def createFilterSpatialDistance (metadata : List (String × ResourceMeta))
    (mapping : List (String × String)) (a1 a2 a3 a4 : FilterArg) :
    Except String (String × List SqlParam) :=
  match cmpExprOfArg a3 with
  | none => Except.error "Expression for operator DISTANCE is not valid."
  | some cmp =>
      match spatialArgInfo metadata mapping a1 with
      | Except.error e => Except.error e
      | Except.ok (fg1, srid1, a1x) =>
          match spatialArgInfo metadata mapping a2 with
          | Except.error e => Except.error e
          | Except.ok (fg2, srid2, a2x) =>
              if fg1 = false ∧ isGeomLiteral a1x = false then
                Except.error
                  "First argument for operator DISTANCE must be a geometry field or a GeoJSON encoded geometry."
              else if fg2 = false ∧ isGeomLiteral a2x = false then
                Except.error
                  "Second argument for operator DISTANCE must be a geometry field or a GeoJSON encoded geometry."
              else
                match a4 with
                | FilterArg.num n4 =>
                    if fg1 then
                      match aliasedFieldSql metadata mapping a1x with
                      | Except.error e => Except.error e
                      | Except.ok base1 =>
                          let e1 :=
                            if srid1 ≠ some CRS_DEFAULT_DATABASE then
                              "ST_Transform(" ++ base1 ++ ", 2100)"
                            else base1
                          if fg2 then
                            match aliasedFieldSql metadata mapping a2x with
                            | Except.error e => Except.error e
                            | Except.ok base2 =>
                                let e2 :=
                                  if srid2 ≠ some CRS_DEFAULT_DATABASE then
                                    "ST_Transform(" ++ base2 ++ ", 2100)"
                                  else base2
                                Except.ok
                                  ("(ST_Distance(" ++ e1 ++ "," ++ e2 ++ ") " ++
                                     cmp ++ " %s)", [SqlParam.num n4])
                          else
                            match a2x with
                            | FilterArg.geom w2 =>
                                Except.ok
                                  ("(ST_Distance(" ++ e1 ++
                                     ", ST_Transform(ST_GeomFromText(%s, 3857), 2100)) " ++
                                     cmp ++ " %s)",
                                   [SqlParam.str w2, SqlParam.num n4])
                            | _ => Except.error "Unhandled exception has occured."
                    else if fg2 then
                      match aliasedFieldSql metadata mapping a2x with
                      | Except.error e => Except.error e
                      | Except.ok base2 =>
                          let e2 :=
                            if srid2 ≠ some CRS_DEFAULT_DATABASE then
                              "ST_Transform(" ++ base2 ++ ", 2100)"
                            else base2
                          match a1x with
                          | FilterArg.geom w1 =>
                              Except.ok
                                ("(ST_Distance(" ++ e2 ++
                                   ", ST_Transform(ST_GeomFromText(%s, 3857), 2100)) " ++
                                   cmp ++ " %s)",
                                 [SqlParam.str w1, SqlParam.num n4])
                          | _ => Except.error "Unhandled exception has occured."
                    else
                      match a1x, a2x with
                      | FilterArg.geom w1, FilterArg.geom w2 =>
                          Except.ok
                            ("(ST_Distance(ST_Transform(ST_GeomFromText(%s, 3857), 2100), ST_Transform(ST_GeomFromText(%s, 3857), 2100)) " ++
                               cmp ++ " %s)",
                             [SqlParam.str w1, SqlParam.str w2, SqlParam.num n4])
                      | _, _ => Except.error "Unhandled exception has occured."
                | _ => Except.error "Third argument for operator DISTANCE must be number."

/-- _create_filter_spatial_relation (base.py lines 800-876), used for
CONTAINS with ST_Contains and INTERSECTS with ST_Intersects.  Note the
double space before = TRUE in the two-literal branch, present in the
source at line 876. -/
def createFilterSpatialRelation (metadata : List (String × ResourceMeta))
    (mapping : List (String × String)) (spatialOperator : String)
    (a1 a2 : FilterArg) : Except String (String × List SqlParam) :=
  match spatialArgInfo metadata mapping a1 with
  | Except.error e => Except.error e
  | Except.ok (fg1, srid1, a1x) =>
      match spatialArgInfo metadata mapping a2 with
      | Except.error e => Except.error e
      | Except.ok (fg2, srid2, a2x) =>
          if fg1 = false ∧ isGeomLiteral a1x = false then
            Except.error
              "First argument for operator DISTANCE must be a geometry field or a GeoJSON encoded geometry."
          else if fg2 = false ∧ isGeomLiteral a2x = false then
            Except.error
              "Second argument for operator DISTANCE must be a geometry field or a GeoJSON encoded geometry."
          else if fg1 then
            match aliasedFieldSql metadata mapping a1x with
            | Except.error e => Except.error e
            | Except.ok base1 =>
                let e1 :=
                  if srid1 ≠ some CRS_DEFAULT_DATABASE then
                    "ST_Transform(" ++ base1 ++ ", 2100)"
                  else base1
                if fg2 then
                  match aliasedFieldSql metadata mapping a2x with
                  | Except.error e => Except.error e
                  | Except.ok base2 =>
                      let e2 :=
                        if srid2 ≠ some CRS_DEFAULT_DATABASE then
                          "ST_Transform(" ++ base2 ++ ", 2100)"
                        else base2
                      Except.ok ("(" ++ spatialOperator ++ "(" ++ e1 ++ "," ++
                        e2 ++ ") = TRUE)", [])
                else
                  match a2x with
                  | FilterArg.geom w2 =>
                      Except.ok ("(" ++ spatialOperator ++ "(" ++ e1 ++
                        ", ST_Transform(ST_GeomFromText(%s, 3857), 2100)) = TRUE)",
                        [SqlParam.str w2])
                  | _ => Except.error "Unhandled exception has occured."
          else if fg2 then
            match aliasedFieldSql metadata mapping a2x with
            | Except.error e => Except.error e
            | Except.ok base2 =>
                let e2 :=
                  if srid2 ≠ some CRS_DEFAULT_DATABASE then
                    "ST_Transform(" ++ base2 ++ ", 2100)"
                  else base2
                match a1x with
                | FilterArg.geom w1 =>
                    Except.ok ("(" ++ spatialOperator ++
                      "(ST_Transform(ST_GeomFromText(%s, 3857), 2100), " ++
                      e2 ++ ") = TRUE)", [SqlParam.str w1])
                | _ => Except.error "Unhandled exception has occured."
          else
            match a1x, a2x with
            | FilterArg.geom w1, FilterArg.geom w2 =>
                Except.ok ("(" ++ spatialOperator ++
                  "(ST_Transform(ST_GeomFromText(%s, 3857), 2100), ST_Transform(ST_GeomFromText(%s, 3857), 2100))  = TRUE)",
                  [SqlParam.str w1, SqlParam.str w2])
            | _, _ => Except.error "Unhandled exception has occured."

/-! ### Projected field records (base.py lines 357-367)

parsed_query['fields'] maps each output alias to the record built at
lines 357-367; insertion order is kept by using an association list. -/

structure FieldInfo where
  fullname : String
  name : String
  outAlias : String
  ftype : String
  is_geom : Bool
  srid : Option Int
deriving DecidableEq, Repr

/-! ### Order-by lowering (base.py lines 391-447)

A sort entry is a string or a dictionary with a mandatory name, an
optional resource and an optional desc which is honoured only when it is a
boolean.  The emitted piece is table_alias."field" followed by a space and
desc or the empty string.  When the resource is explicit and the name is
not a projection alias, the name reaches the SQL string unvalidated. -/

inductive SortEntry where
  | str (s : String)
  | obj (name : Option String) (resource : Option String) (desc : Bool)
deriving DecidableEq, Repr

def sortEntrySql (parsedFields : List (String × FieldInfo))
    (metadata : List (String × ResourceMeta))
    (mapping : List (String × String)) (e : SortEntry) :
    Except String String :=
  match (match e with
         | SortEntry.str s => Except.ok (s, (none : Option String), false)
         | SortEntry.obj none _ _ =>
             Except.error "Sorting field name is missing."
         | SortEntry.obj (some n) r d => Except.ok (n, r, d)) with
  | Except.error err => Except.error err
  | Except.ok (sortName0, sortResource0, sortDesc) =>
      let sortName :=
        match List.lookup sortName0 parsedFields with
        | some fi => if fi.name ≠ sortName0 then fi.name else sortName0
        | none => sortName0
      match (match sortResource0 with
             | some r => Except.ok r
             | none =>
                 match getResourcesByFieldName metadata sortName with
                 | [] => Except.error ("Sorting field " ++ sortName ++
                     " does not exist.")
                 | [r0] => Except.ok r0
                 | rs => Except.error ("Sorting field " ++ sortName ++
                     " is ambiguous for resources " ++
                     String.intercalate "," rs ++ ".")) with
      | Except.error err => Except.error err
      | Except.ok sortResource =>
          match metaLookup metadata mapping sortResource with
          | none => Except.error ("Resource " ++ sortResource ++
              " for sorting field " ++ sortName ++ " does not exist.")
          | some m =>
              Except.ok (m.tableAlias ++ ".\"" ++ sortName ++ "\" " ++
                (if sortDesc then "desc" else ""))

/-! ### All-fields expansion (base.py lines 282-299)

When query['fields'] is absent or the empty list, the source writes the
expansion back into the query document: one dictionary with resource and
name per field of every referenced resource. -/

inductive FieldRefNode where
  | str (s : String)
  | obj (name : String) (resource : Option String) (outAlias : Option String)
deriving DecidableEq, Repr

def allFieldsExpansion (queryMetadata : List (String × ResourceMeta)) :
    List FieldRefNode :=
  queryMetadata.flatMap
    (fun p => p.2.fields.map
      (fun df => FieldRefNode.obj df.name (some p.1) none))

/-- query['fields'] after the addAllFields block: the expansion replaces a
missing or empty field list, any other list is kept. -/
def compiledFieldsValue (queryMetadata : List (String × ResourceMeta))
    (fields : Option (List FieldRefNode)) : List FieldRefNode :=
  match fields with
  | none => allFieldsExpansion queryMetadata
  | some [] => allFieldsExpansion queryMetadata
  | some l => l

/-! ### GeoJSON materialization (base.py lines 513-529)

Each database row is a mapping from output alias to cell value; geometry
cells arrive as hex encoded WKB which shapely.wkb.loads decodes.  The
decoder is external, so a decoded geometry is modelled as a value tagged
with the hex string it was decoded from. -/

inductive CellValue where
  | vnull
  | vint (n : Int)
  | vstr (s : String)
deriving DecidableEq, Repr

structure GeomObj where
  wkbHex : String
deriving DecidableEq, Repr

def shapelyWkbLoads (v : CellValue) : Option GeomObj :=
  match v with
  | CellValue.vstr h => some (GeomObj.mk h)
  | _ => none

def rowGet (r : List (String × CellValue)) (k : String) : CellValue :=
  (List.lookup k r).getD CellValue.vnull

structure Feature where
  id : Nat
  properties : List (String × CellValue)
  geometry : Option GeomObj
  ftype : String
deriving DecidableEq, Repr

/-- The body of the per-row loop of the GeoJSON branch (lines 524-528):
a geometry field sets the feature geometry, any other field is stored
into the properties dictionary keyed by its output alias. -/
def featureStep (r : List (String × CellValue)) (acc : Feature)
    (p : String × FieldInfo) : Feature :=
  if p.2.is_geom then
    { acc with geometry := shapelyWkbLoads (rowGet r p.1) }
  else
    { acc with properties := acc.properties ++ [(p.1, rowGet r p.1)] }

/-- The per-row loop of the GeoJSON branch (lines 517-529). -/
def buildFeature (parsedFields : List (String × FieldInfo)) (fid : Nat)
    (r : List (String × CellValue)) : Feature :=
  parsedFields.foldl (featureStep r)
    { id := fid, properties := [], geometry := none, ftype := "Feature" }

def buildFeaturesAux (parsedFields : List (String × FieldInfo)) (fid : Nat) :
    List (List (String × CellValue)) → List Feature
  | [] => []
  | r :: rs =>
      buildFeature parsedFields (fid + 1) r ::
        buildFeaturesAux parsedFields (fid + 1) rs

/-- feature_id starts at 0 and is incremented before each feature. -/
def buildFeatures (parsedFields : List (String × FieldInfo))
    (records : List (List (String × CellValue))) : List Feature :=
  buildFeaturesAux parsedFields 0 records

/-! ### Concrete example data used by the theorems below -/

def stubEx : ResourceStub :=
  { table := "a", resource_name := "alpha", package_title := "T",
    package_notes := "N", wms := none, wms_server := none,
    wms_layer := none, geometry_type := "POINT" }

def descEx : Descriptor :=
  { srid := some 4326, geometry_column := some "geom",
    fields := [DbField.mk "geom" "geometry", DbField.mk "name" "varchar"] }

def stubEx2 : ResourceStub :=
  { stubEx with
    tableAlias := some "t1", srid := some 4326,
    geometry_column := some "geom", fields := some descEx.fields }

def mdC1 : List (String × ResourceMeta) :=
  [("roads", { table := "roads", tableAlias := "t1", srid := some 2100,
               geometry_column := some "geom",
               fields := [DbField.mk "geom" "geometry",
                          DbField.mk "name" "varchar"] })]

def mpC1 : List (String × String) := [("roads", "roads")]

def pfC1 : List (String × FieldInfo) :=
  [("name", { fullname := "t1.\"name\"", name := "name", outAlias := "name",
              ftype := "varchar", is_geom := false, srid := none })]

def maliciousSortName : String := "id\" ; drop table users; --"

/-- Contiguous substring occurrence, on the character lists. -/
def occursIn : List Char → List Char → Bool
  | n, [] => n.isEmpty
  | n, c :: t => n.isPrefixOf (c :: t) || occursIn n t

def strOccurs (needle hay : String) : Bool :=
  occursIn needle.toList hay.toList

def mC4 : ResourceMeta :=
  { table := "roads", tableAlias := "t1", srid := some 4326,
    geometry_column := some "geom",
    fields := [DbField.mk "geom" "geometry", DbField.mk "name" "varchar"] }

def mdC4 : List (String × ResourceMeta) := [("roads", mC4)]

def mpC4 : List (String × String) := [("roads", "roads")]

def mC10 : ResourceMeta :=
  { table := "roads", tableAlias := "t1", srid := some 2100,
    geometry_column := some "geom",
    fields := [DbField.mk "geom" "geometry", DbField.mk "name" "varchar"] }

def gC8 : String × FieldInfo :=
  ("g", { fullname := "t1.\"geom\"", name := "geom", outAlias := "g",
          ftype := "geometry", is_geom := true, srid := some 2100 })

def pfC8 : List (String × FieldInfo) :=
  [gC8,
   ("name", { fullname := "t1.\"name\"", name := "name", outAlias := "name",
              ftype := "varchar", is_geom := false, srid := none })]

def rowC8 : List (String × CellValue) :=
  [("g", CellValue.vstr "0101"), ("name", CellValue.vstr "main")]

/-! ## Theorems about the claims -/

/-- C9: for every numeric limit, the compiled limit is the given value when
0 < limit < 10000 and 10000 when the limit is above 10000, at most 0 or
missing; the offset is the given value when it is nonnegative and 0 when it
is negative or missing; a non-numeric limit or offset raises a domain
error. -/
theorem C9_limit_offset_clamping :
    (∀ n : Int, 0 < n → n < 10000 →
      parseLimit (some (PyVal.num n)) = Except.ok n) ∧
    (∀ n : Int, 10000 < n →
      parseLimit (some (PyVal.num n)) = Except.ok 10000) ∧
    (∀ n : Int, n ≤ 0 →
      parseLimit (some (PyVal.num n)) = Except.ok 10000) ∧
    parseLimit none = Except.ok 10000 ∧
    (∀ s, parseLimit (some (PyVal.str s)) =
      Except.error "Parameter limit must be a number.") ∧
    (∀ n : Int, 0 ≤ n → parseOffset (some (PyVal.num n)) = Except.ok n) ∧
    (∀ n : Int, n < 0 → parseOffset (some (PyVal.num n)) = Except.ok 0) ∧
    parseOffset none = Except.ok 0 ∧
    (∀ s, parseOffset (some (PyVal.str s)) =
      Except.error "Parameter offset must be a number.") := by
  refine ⟨?_, ?_, ?_, rfl, fun s => rfl, ?_, ?_, rfl, fun s => rfl⟩
  · intro n h1 h2
    have hc : n < MAX_RESULT_ROWS ∧ 0 < n := by
      unfold MAX_RESULT_ROWS; omega
    simp [parseLimit, hc]
  · intro n h
    simp [parseLimit, MAX_RESULT_ROWS]
    omega
  · intro n h
    simp [parseLimit, MAX_RESULT_ROWS]
    omega
  · intro n h
    simp [parseOffset, h]
  · intro n h
    have hc : ¬(0 ≤ n) := by omega
    simp [parseOffset, hc]

/-- C9 witness: each clause of the clamping theorem at a concrete input. -/
theorem C9_limit_offset_clamping_witness :
    parseLimit (some (PyVal.num 5)) = Except.ok 5 ∧
    parseLimit (some (PyVal.num 20000)) = Except.ok 10000 ∧
    parseLimit (some (PyVal.num (-1))) = Except.ok 10000 ∧
    parseLimit none = Except.ok 10000 ∧
    parseLimit (some (PyVal.str "x")) =
      Except.error "Parameter limit must be a number." ∧
    parseOffset (some (PyVal.num 7)) = Except.ok 7 ∧
    parseOffset (some (PyVal.num (-2))) = Except.ok 0 ∧
    parseOffset none = Except.ok 0 ∧
    parseOffset (some (PyVal.str "y")) =
      Except.error "Parameter offset must be a number." := by
  obtain ⟨h1, h2, h3, h4, h5, h6, h7, h8, h9⟩ := C9_limit_offset_clamping
  exact ⟨h1 5 (by decide) (by decide), h2 20000 (by decide),
    h3 (-1) (by decide), h4, h5 "x", h6 7 (by decide), h7 (-2) (by decide),
    h8, h9 "y"⟩

/-- C5 counterexample: with a configured total timeout of 500 ms and no
elapsed time the statement timeout sent to the server is 1000, which is
larger than the configured total timeout, so the claimed upper bound fails
as stated. -/
theorem C5_counterexample :
    commandTimeout 500 0 = 1000 ∧ ¬ commandTimeout 500 0 ≤ 500 := by
  decide

/-- C5 amended: the per-statement timeout is at least 1000 and at most
max(configured total timeout, 1000); in particular it is at most the
configured total timeout whenever that is at least 1000. -/
theorem C5_statement_timeout_bounds (timeout elapsedMs : Int)
    (h : 0 ≤ elapsedMs) :
    1000 ≤ commandTimeout timeout elapsedMs ∧
      commandTimeout timeout elapsedMs ≤ max timeout 1000 := by
  unfold commandTimeout
  exact ⟨le_max_right _ _, max_le_max (by omega) le_rfl⟩

/-- C5 witness: the bounds at the default timeout with nothing elapsed. -/
theorem C5_statement_timeout_bounds_witness :
    1000 ≤ commandTimeout 30000 0 ∧ commandTimeout 30000 0 ≤ max 30000 1000 :=
  C5_statement_timeout_bounds 30000 0 (by decide)

/-- C2: when the timeout key is absent from the configuration, line 185
does default the working timeout to 30000 ms, but the cumulative check
after each query reads the key without a default and raises KeyError,
surfacing as the generic unhandled-exception error even with zero elapsed
time, instead of the claimed behave-as-30000 semantics (modelled from the
spec by specCheckCumulativeTimeout, which succeeds on the same input). -/
theorem C2_missing_timeout_key_crashes :
    checkCumulativeTimeout { timeout := none } 0 =
        Except.error "Unhandled exception has occured." ∧
      specCheckCumulativeTimeout { timeout := none } 0 = Except.ok () ∧
      configTimeoutOrDefault { timeout := none } = 30000 := by
  refine ⟨rfl, ?_, rfl⟩
  have h : ¬ ((((30000 / 1000 : Int) : ℚ)) ≤ 0) := by norm_num
  simp [specCheckCumulativeTimeout, configTimeoutOrDefault,
    DEFAULT_SQL_TIMEOUT, h]

/-- C3: the default metadata argument of execute is a single shared
dictionary.  After a first invocation touching resource a, a second
invocation that does not pass metadata starts from a cache already holding
a, so resource b receives alias t2 and the returned metadata holds both
resources, whereas a run in which the first invocation never happened
gives b the alias t1. -/
theorem C3_shared_default_metadata :
    runCallsShared [] [[["a"]], [["b"]]] = [["a"], ["a", "b"]] ∧
      aliasOf ["a", "b"] "b" = some "t2" ∧
      runBatchMeta [] [["b"]] = ["b"] ∧
      aliasOf ["b"] "b" = some "t1" ∧
      (["a", "b"] : List String) ≠ ["b"] ∧
      some "t2" ≠ some "t1" := by
  refine ⟨rfl, ?_, rfl, ?_, by decide, by decide⟩ <;> rfl

/-- C6 counterexample: two resources a and b, both present in the catalog,
both given the alias x.  Resource resolution succeeds instead of failing
with a domain error, and the mapping silently lets the later entry
overwrite the earlier one, so x resolves to b. -/
theorem C6_counterexample :
    parseQueryResources ["a", "b"]
        [ResourceRef.obj (some "a") (some "x"),
         ResourceRef.obj (some "b") (some "x")] =
      Except.ok ([("x", "b"), ("b", "b"), ("x", "a"), ("a", "a")],
        ["a", "b"]) ∧
      List.lookup "x" [("x", "b"), ("b", "b"), ("x", "a"), ("a", "a")] =
        some "b" := ⟨rfl, rfl⟩

/-- C6 amended: duplicate aliases resolving to different physical
resources are not detected; the resource mapping records name to name and
alias to name with dictionary overwrite semantics, so resolution succeeds
and the duplicated alias resolves to the last resource declaring it. -/
theorem C6_duplicate_alias_last_wins (c : List String) (n1 n2 al : String)
    (h1 : c.contains n1 = true) (h2 : c.contains n2 = true)
    (hne : n1 ≠ n2) :
    parseQueryResources c
        [ResourceRef.obj (some n1) (some al),
         ResourceRef.obj (some n2) (some al)] =
      Except.ok ([(al, n2), (n2, n2), (al, n1), (n1, n1)], [n1, n2]) ∧
      List.lookup al [(al, n2), (n2, n2), (al, n1), (n1, n1)] = some n2 := by
  constructor
  · have hm1 : n1 ∈ c := by simpa using h1
    have hm2 : n2 ∈ c := by simpa using h2
    have hc : ¬ (n2 = n1) := fun h => hne h.symm
    simp [parseQueryResources, parseQueryResourcesGo, extractNameAlias,
      hm1, hm2, hc]
  · rw [List.lookup_cons]
    simp

/-- C6 witness: the amended behaviour at catalog [a, b] with alias x. -/
theorem C6_duplicate_alias_last_wins_witness :
    parseQueryResources ["a", "b"]
        [ResourceRef.obj (some "a") (some "x"),
         ResourceRef.obj (some "b") (some "x")] =
      Except.ok ([("x", "b"), ("b", "b"), ("x", "a"), ("a", "a")],
        ["a", "b"]) ∧
      List.lookup "x" [("x", "b"), ("b", "b"), ("x", "a"), ("a", "a")] =
        some "b" :=
  C6_duplicate_alias_last_wins ["a", "b"] "a" "b" "x" (by decide) (by decide)
    (by decide)

/-! ### C7: stub mutation during compilation -/


/-- C7 counterexample: processing the first reference to resource a
replaces the entry of the context resources map by a mutated stub that
now carries alias, srid, geometry_column and fields entries, so
compilation does mutate the entries of the resources map. -/
theorem C7_counterexample :
    processResourceMetadata [("a", stubEx)] [] "a" descEx =
        Except.ok ([("a", stubEx2)], ["a"]) ∧ stubEx2 ≠ stubEx := by
  exact ⟨rfl, by decide⟩

theorem lookup_updateAssoc (l : List (String × ResourceStub))
    (k key : String) (v : ResourceStub) :
    List.lookup k (updateAssoc l key v) =
      if k == key then (List.lookup key l).map (fun _ => v)
      else List.lookup k l := by
  induction l with
  | nil =>
      by_cases h : k = key <;> simp [updateAssoc, h]
  | cons p t ih =>
      obtain ⟨a, b⟩ := p
      by_cases ha : a = key
      · subst ha
        by_cases hk : k = a
        · subst hk
          simp [updateAssoc, List.lookup_cons]
        · have hk2 : (k == a) = false := beq_eq_false_iff_ne.mpr hk
          simp only [updateAssoc, List.map_cons, List.lookup_cons,
            beq_self_eq_true, if_true, hk2]
          simpa [updateAssoc, hk2] using ih
      · have hka : ¬ (key = a) := fun h => ha h.symm
        have hka2 : (key == a) = false := beq_eq_false_iff_ne.mpr hka
        by_cases hk : k = a
        · subst hk
          simp [updateAssoc, List.lookup_cons, ha, hka2]
        · have hk2 : (k == a) = false := beq_eq_false_iff_ne.mpr hk
          simp only [updateAssoc, List.map_cons, List.lookup_cons,
            hka2, hk2]
          simp only [show (if (a, b).1 == key then (key, v) else (a, b)) =
            (a, b) from by simp [beq_eq_false_iff_ne.mpr ha],
            List.lookup_cons, hk2]
          simpa [updateAssoc] using ih

/-- C7 amended: the metadata step of the resource loop preserves the
eight original attributes of every stub in the resources map; only the
alias, srid, geometry_column and fields entries are written. -/
theorem C7_original_attrs_preserved
    (resources : List (String × ResourceStub)) (metaKeys : List String)
    (name : String) (d : Descriptor)
    (out : List (String × ResourceStub) × List String)
    (h : processResourceMetadata resources metaKeys name d = Except.ok out)
    (k : String) :
    (List.lookup k out.1).map originalAttrs =
      (List.lookup k resources).map originalAttrs := by
  unfold processResourceMetadata at h
  split at h
  · exact absurd h (by simp)
  · next s hlk =>
      split at h
      · injection h with h2
        rw [← h2]
      · injection h with h2
        rw [← h2]
        rw [lookup_updateAssoc]
        cases hk : (k == name) with
        | true =>
            have hk2 : k = name := by simpa using hk
            subst hk2
            rw [if_pos rfl, hlk]
            rfl
        | false =>
            rw [if_neg (by simp [hk])]

/-- C7 witness: attribute preservation at the concrete one-entry map. -/
theorem C7_original_attrs_preserved_witness :
    (List.lookup "a" [("a", stubEx2)]).map originalAttrs =
      (List.lookup "a" [("a", stubEx)]).map originalAttrs :=
  C7_original_attrs_preserved [("a", stubEx)] [] "a" descEx
    ([("a", stubEx2)], ["a"]) rfl "a"

/-! ### C1: identifiers in the emitted SQL -/


/-- C1: falsified on the order-by path.  A sort entry with an explicit
resource whose name is neither a projection alias nor checked against the
catalog is interpolated verbatim into the order-by identifier position, so
an identifier in the produced SQL does come from raw user input. -/
theorem C1_sort_identifier_injection :
    sortEntrySql pfC1 mdC1 mpC1
        (SortEntry.obj (some maliciousSortName) (some "roads") false) =
      Except.ok ("t1.\"" ++ maliciousSortName ++ "\" ") ∧
      (∃ pre post, ("t1.\"" ++ maliciousSortName ++ "\" ") =
        pre ++ maliciousSortName ++ post) :=
  ⟨rfl, "t1.\"", "\" ", rfl⟩

/-! ### C4: SRID transforms on spatial filter sides -/


theorem spatialArgInfo_field (md : List (String × ResourceMeta))
    (mp : List (String × String)) (nm r : String) (m : ResourceMeta)
    (hm : metaLookup md mp r = some m)
    (hf : fieldInResource m nm = true)
    (hg : m.geometry_column = some nm) :
    spatialArgInfo md mp (FilterArg.fieldRef nm (some r)) =
      Except.ok (true, m.srid, FilterArg.fieldRef nm (some r)) := by
  simp [spatialArgInfo, isFieldGeomCheck, isFieldCheck, getFieldSridCheck,
    hm, hf, hg]

theorem spatialArgInfo_geom (md : List (String × ResourceMeta))
    (mp : List (String × String)) (w : String) :
    spatialArgInfo md mp (FilterArg.geom w) =
      Except.ok (false, some CRS_DEFAULT_DATABASE, FilterArg.geom w) := rfl

theorem aliasedFieldSql_field (md : List (String × ResourceMeta))
    (mp : List (String × String)) (nm r : String) (m : ResourceMeta)
    (hm : metaLookup md mp r = some m) :
    aliasedFieldSql md mp (FilterArg.fieldRef nm (some r)) =
      Except.ok (m.tableAlias ++ ".\"" ++ nm ++ "\"") := by
  simp [aliasedFieldSql, hm]

/-- C4 counterexample: an AREA filter on a literal geometry.  The literal
side carries source SRID 3857, different from 2100, yet the produced
fragment contains no ST_Transform at all. -/
theorem C4_counterexample :
    createFilterSpatialArea [] []
        (FilterArg.geom "POLYGON ((0 0, 1 0, 1 1, 0 0))")
        (FilterArg.str "GREATER") (FilterArg.num 5) =
      Except.ok ("(ST_Area(ST_GeomFromText(%s, 3857)) > %s)",
        [SqlParam.str "POLYGON ((0 0, 1 0, 1 1, 0 0))", SqlParam.num 5]) ∧
      strOccurs "ST_Transform" "(ST_Area(ST_GeomFromText(%s, 3857)) > %s)" =
        false := by
  exact ⟨rfl, by decide⟩

/-- C4 amended: every geometry-field side of AREA, DISTANCE, CONTAINS and
INTERSECTS whose SRID differs from 2100 is wrapped in ST_Transform(...,
2100) (and left unwrapped when the SRID is 2100), and every literal
geometry side of DISTANCE, CONTAINS and INTERSECTS is always wrapped in
ST_Transform(ST_GeomFromText(%s, 3857), 2100); the one exception to the
claim is the literal side of AREA, which is emitted as
ST_GeomFromText(%s, 3857) with no transform. -/
theorem C4_spatial_transform_wrapping :
    (∀ (md : List (String × ResourceMeta)) (mp : List (String × String))
       (nm r : String) (m : ResourceMeta) (cmpTok e : String) (n3 : Int),
      metaLookup md mp r = some m → fieldInResource m nm = true →
      m.geometry_column = some nm → m.srid ≠ some 2100 →
      cmpExprOfToken cmpTok = some e →
      createFilterSpatialArea md mp (FilterArg.fieldRef nm (some r))
          (FilterArg.str cmpTok) (FilterArg.num n3) =
        Except.ok ("(ST_Area(" ++ ("ST_Transform(" ++
          (m.tableAlias ++ ".\"" ++ nm ++ "\"") ++ ", 2100)") ++ ") " ++
          e ++ " %s)", [SqlParam.num n3])) ∧
    (∀ (md : List (String × ResourceMeta)) (mp : List (String × String))
       (w cmpTok e : String) (n3 : Int),
      cmpExprOfToken cmpTok = some e →
      createFilterSpatialArea md mp (FilterArg.geom w)
          (FilterArg.str cmpTok) (FilterArg.num n3) =
        Except.ok ("(ST_Area(ST_GeomFromText(%s, 3857)) " ++ e ++ " %s)",
          [SqlParam.str w, SqlParam.num n3])) ∧
    (∀ (md : List (String × ResourceMeta)) (mp : List (String × String))
       (nm1 r1 nm2 r2 : String) (m1 m2 : ResourceMeta) (cmpTok e : String)
       (n4 : Int),
      metaLookup md mp r1 = some m1 → fieldInResource m1 nm1 = true →
      m1.geometry_column = some nm1 → m1.srid ≠ some 2100 →
      metaLookup md mp r2 = some m2 → fieldInResource m2 nm2 = true →
      m2.geometry_column = some nm2 → m2.srid = some 2100 →
      cmpExprOfToken cmpTok = some e →
      createFilterSpatialDistance md mp (FilterArg.fieldRef nm1 (some r1))
          (FilterArg.fieldRef nm2 (some r2)) (FilterArg.str cmpTok)
          (FilterArg.num n4) =
        Except.ok ("(ST_Distance(" ++ ("ST_Transform(" ++
          (m1.tableAlias ++ ".\"" ++ nm1 ++ "\"") ++ ", 2100)") ++ "," ++
          (m2.tableAlias ++ ".\"" ++ nm2 ++ "\"") ++ ") " ++ e ++ " %s)",
          [SqlParam.num n4])) ∧
    (∀ (md : List (String × ResourceMeta)) (mp : List (String × String))
       (nm r : String) (m : ResourceMeta) (cmpTok e w2 : String) (n4 : Int),
      metaLookup md mp r = some m → fieldInResource m nm = true →
      m.geometry_column = some nm → m.srid ≠ some 2100 →
      cmpExprOfToken cmpTok = some e →
      createFilterSpatialDistance md mp (FilterArg.fieldRef nm (some r))
          (FilterArg.geom w2) (FilterArg.str cmpTok) (FilterArg.num n4) =
        Except.ok ("(ST_Distance(" ++ ("ST_Transform(" ++
          (m.tableAlias ++ ".\"" ++ nm ++ "\"") ++ ", 2100)") ++
          ", ST_Transform(ST_GeomFromText(%s, 3857), 2100)) " ++ e ++ " %s)",
          [SqlParam.str w2, SqlParam.num n4])) ∧
    (∀ (md : List (String × ResourceMeta)) (mp : List (String × String))
       (w1 w2 cmpTok e : String) (n4 : Int),
      cmpExprOfToken cmpTok = some e →
      createFilterSpatialDistance md mp (FilterArg.geom w1)
          (FilterArg.geom w2) (FilterArg.str cmpTok) (FilterArg.num n4) =
        Except.ok
          ("(ST_Distance(ST_Transform(ST_GeomFromText(%s, 3857), 2100), ST_Transform(ST_GeomFromText(%s, 3857), 2100)) " ++
            e ++ " %s)",
          [SqlParam.str w1, SqlParam.str w2, SqlParam.num n4])) ∧
    (∀ (md : List (String × ResourceMeta)) (mp : List (String × String))
       (sop nm r : String) (m : ResourceMeta) (w1 : String),
      metaLookup md mp r = some m → fieldInResource m nm = true →
      m.geometry_column = some nm → m.srid ≠ some 2100 →
      createFilterSpatialRelation md mp sop (FilterArg.geom w1)
          (FilterArg.fieldRef nm (some r)) =
        Except.ok ("(" ++ sop ++
          "(ST_Transform(ST_GeomFromText(%s, 3857), 2100), " ++
          ("ST_Transform(" ++ (m.tableAlias ++ ".\"" ++ nm ++ "\"") ++
            ", 2100)") ++ ") = TRUE)", [SqlParam.str w1])) ∧
    (∀ (md : List (String × ResourceMeta)) (mp : List (String × String))
       (sop w1 w2 : String),
      createFilterSpatialRelation md mp sop (FilterArg.geom w1)
          (FilterArg.geom w2) =
        Except.ok ("(" ++ sop ++
          "(ST_Transform(ST_GeomFromText(%s, 3857), 2100), ST_Transform(ST_GeomFromText(%s, 3857), 2100))  = TRUE)",
          [SqlParam.str w1, SqlParam.str w2])) ∧
    (∀ (md : List (String × ResourceMeta)) (mp : List (String × String))
       (nm r : String) (m : ResourceMeta) (cmpTok e w1 : String) (n4 : Int),
      metaLookup md mp r = some m → fieldInResource m nm = true →
      m.geometry_column = some nm → m.srid ≠ some 2100 →
      cmpExprOfToken cmpTok = some e →
      createFilterSpatialDistance md mp (FilterArg.geom w1)
          (FilterArg.fieldRef nm (some r)) (FilterArg.str cmpTok)
          (FilterArg.num n4) =
        Except.ok ("(ST_Distance(" ++ ("ST_Transform(" ++
          (m.tableAlias ++ ".\"" ++ nm ++ "\"") ++ ", 2100)") ++
          ", ST_Transform(ST_GeomFromText(%s, 3857), 2100)) " ++ e ++ " %s)",
          [SqlParam.str w1, SqlParam.num n4])) ∧
    (∀ (md : List (String × ResourceMeta)) (mp : List (String × String))
       (sop nm1 r1 nm2 r2 : String) (m1 m2 : ResourceMeta),
      metaLookup md mp r1 = some m1 → fieldInResource m1 nm1 = true →
      m1.geometry_column = some nm1 → m1.srid ≠ some 2100 →
      metaLookup md mp r2 = some m2 → fieldInResource m2 nm2 = true →
      m2.geometry_column = some nm2 → m2.srid = some 2100 →
      createFilterSpatialRelation md mp sop (FilterArg.fieldRef nm1 (some r1))
          (FilterArg.fieldRef nm2 (some r2)) =
        Except.ok ("(" ++ sop ++ "(" ++ ("ST_Transform(" ++
          (m1.tableAlias ++ ".\"" ++ nm1 ++ "\"") ++ ", 2100)") ++ "," ++
          (m2.tableAlias ++ ".\"" ++ nm2 ++ "\"") ++ ") = TRUE)", [])) ∧
    (∀ (md : List (String × ResourceMeta)) (mp : List (String × String))
       (sop nm1 r1 nm2 r2 : String) (m1 m2 : ResourceMeta),
      metaLookup md mp r1 = some m1 → fieldInResource m1 nm1 = true →
      m1.geometry_column = some nm1 → m1.srid = some 2100 →
      metaLookup md mp r2 = some m2 → fieldInResource m2 nm2 = true →
      m2.geometry_column = some nm2 → m2.srid ≠ some 2100 →
      createFilterSpatialRelation md mp sop (FilterArg.fieldRef nm1 (some r1))
          (FilterArg.fieldRef nm2 (some r2)) =
        Except.ok ("(" ++ sop ++ "(" ++
          (m1.tableAlias ++ ".\"" ++ nm1 ++ "\"") ++ "," ++
          ("ST_Transform(" ++ (m2.tableAlias ++ ".\"" ++ nm2 ++ "\"") ++
            ", 2100)") ++ ") = TRUE)", [])) ∧
    (∀ (md : List (String × ResourceMeta)) (mp : List (String × String))
       (sop nm r : String) (m : ResourceMeta) (w2 : String),
      metaLookup md mp r = some m → fieldInResource m nm = true →
      m.geometry_column = some nm → m.srid ≠ some 2100 →
      createFilterSpatialRelation md mp sop (FilterArg.fieldRef nm (some r))
          (FilterArg.geom w2) =
        Except.ok ("(" ++ sop ++ "(" ++ ("ST_Transform(" ++
          (m.tableAlias ++ ".\"" ++ nm ++ "\"") ++ ", 2100)") ++
          ", ST_Transform(ST_GeomFromText(%s, 3857), 2100)) = TRUE)",
          [SqlParam.str w2])) := by
  refine ⟨?_, ?_, ?_, ?_, ?_, ?_, ?_, ?_, ?_, ?_, ?_⟩
  · intro md mp nm r m cmpTok e n3 hm hf hg hs hc
    simp [createFilterSpatialArea, cmpExprOfArg, hc,
      spatialArgInfo_field md mp nm r m hm hf hg,
      aliasedFieldSql_field md mp nm r m hm, CRS_DEFAULT_DATABASE, hs]
  · intro md mp w cmpTok e n3 hc
    simp [createFilterSpatialArea, cmpExprOfArg, hc, spatialArgInfo_geom,
      isGeomLiteral]
  · intro md mp nm1 r1 nm2 r2 m1 m2 cmpTok e n4 hm1 hf1 hg1 hs1 hm2 hf2
      hg2 hs2 hc
    simp [createFilterSpatialDistance, cmpExprOfArg, hc,
      spatialArgInfo_field md mp nm1 r1 m1 hm1 hf1 hg1,
      spatialArgInfo_field md mp nm2 r2 m2 hm2 hf2 hg2,
      aliasedFieldSql_field md mp nm1 r1 m1 hm1,
      aliasedFieldSql_field md mp nm2 r2 m2 hm2, CRS_DEFAULT_DATABASE,
      hs1, hs2]
  · intro md mp nm r m cmpTok e w2 n4 hm hf hg hs hc
    simp [createFilterSpatialDistance, cmpExprOfArg, hc,
      spatialArgInfo_field md mp nm r m hm hf hg, spatialArgInfo_geom,
      isGeomLiteral, aliasedFieldSql_field md mp nm r m hm,
      CRS_DEFAULT_DATABASE, hs]
  · intro md mp w1 w2 cmpTok e n4 hc
    simp [createFilterSpatialDistance, cmpExprOfArg, hc,
      spatialArgInfo_geom, isGeomLiteral]
  · intro md mp sop nm r m w1 hm hf hg hs
    simp [createFilterSpatialRelation,
      spatialArgInfo_field md mp nm r m hm hf hg, spatialArgInfo_geom,
      isGeomLiteral, aliasedFieldSql_field md mp nm r m hm,
      CRS_DEFAULT_DATABASE, hs]
  · intro md mp sop w1 w2
    simp [createFilterSpatialRelation, spatialArgInfo_geom, isGeomLiteral]
  · intro md mp nm r m cmpTok e w1 n4 hm hf hg hs hc
    simp [createFilterSpatialDistance, cmpExprOfArg, hc,
      spatialArgInfo_field md mp nm r m hm hf hg, spatialArgInfo_geom,
      isGeomLiteral, aliasedFieldSql_field md mp nm r m hm,
      CRS_DEFAULT_DATABASE, hs]
  · intro md mp sop nm1 r1 nm2 r2 m1 m2 hm1 hf1 hg1 hs1 hm2 hf2 hg2 hs2
    simp [createFilterSpatialRelation,
      spatialArgInfo_field md mp nm1 r1 m1 hm1 hf1 hg1,
      spatialArgInfo_field md mp nm2 r2 m2 hm2 hf2 hg2,
      aliasedFieldSql_field md mp nm1 r1 m1 hm1,
      aliasedFieldSql_field md mp nm2 r2 m2 hm2, CRS_DEFAULT_DATABASE,
      hs1, hs2]
  · intro md mp sop nm1 r1 nm2 r2 m1 m2 hm1 hf1 hg1 hs1 hm2 hf2 hg2 hs2
    simp [createFilterSpatialRelation,
      spatialArgInfo_field md mp nm1 r1 m1 hm1 hf1 hg1,
      spatialArgInfo_field md mp nm2 r2 m2 hm2 hf2 hg2,
      aliasedFieldSql_field md mp nm1 r1 m1 hm1,
      aliasedFieldSql_field md mp nm2 r2 m2 hm2, CRS_DEFAULT_DATABASE,
      hs1, hs2]
  · intro md mp sop nm r m w2 hm hf hg hs
    simp [createFilterSpatialRelation,
      spatialArgInfo_field md mp nm r m hm hf hg, spatialArgInfo_geom,
      isGeomLiteral, aliasedFieldSql_field md mp nm r m hm,
      CRS_DEFAULT_DATABASE, hs]

/-- C4 witness: the wrapping theorem applied at a concrete metadata map
with a field of SRID 4326 and concrete literals. -/
theorem C4_spatial_transform_wrapping_witness :
    createFilterSpatialArea mdC4 mpC4 (FilterArg.fieldRef "geom" (some "roads"))
        (FilterArg.str "GREATER") (FilterArg.num 5) =
      Except.ok ("(ST_Area(" ++ ("ST_Transform(" ++
        ("t1" ++ ".\"" ++ "geom" ++ "\"") ++ ", 2100)") ++ ") " ++
        ">" ++ " %s)", [SqlParam.num 5]) ∧
    createFilterSpatialRelation mdC4 mpC4 "ST_Contains"
        (FilterArg.geom "POINT (1 2)")
        (FilterArg.fieldRef "geom" (some "roads")) =
      Except.ok ("(" ++ "ST_Contains" ++
        "(ST_Transform(ST_GeomFromText(%s, 3857), 2100), " ++
        ("ST_Transform(" ++ ("t1" ++ ".\"" ++ "geom" ++ "\"") ++
          ", 2100)") ++ ") = TRUE)", [SqlParam.str "POINT (1 2)"]) ∧
    createFilterSpatialDistance mdC4 mpC4 (FilterArg.geom "POINT (1 2)")
        (FilterArg.fieldRef "geom" (some "roads"))
        (FilterArg.str "LESS") (FilterArg.num 10) =
      Except.ok ("(ST_Distance(" ++ ("ST_Transform(" ++
        ("t1" ++ ".\"" ++ "geom" ++ "\"") ++ ", 2100)") ++
        ", ST_Transform(ST_GeomFromText(%s, 3857), 2100)) " ++ "<" ++ " %s)",
        [SqlParam.str "POINT (1 2)", SqlParam.num 10]) ∧
    createFilterSpatialRelation mdC4 mpC4 "ST_Intersects"
        (FilterArg.fieldRef "geom" (some "roads"))
        (FilterArg.geom "POINT (3 4)") =
      Except.ok ("(" ++ "ST_Intersects" ++ "(" ++ ("ST_Transform(" ++
        ("t1" ++ ".\"" ++ "geom" ++ "\"") ++ ", 2100)") ++
        ", ST_Transform(ST_GeomFromText(%s, 3857), 2100)) = TRUE)",
        [SqlParam.str "POINT (3 4)"]) := by
  obtain ⟨h1, h2, h3, h4, h5, h6, h7, h8, h9, h10, h11⟩ :=
    C4_spatial_transform_wrapping
  exact ⟨h1 mdC4 mpC4 "geom" "roads" mC4 "GREATER" ">" 5 rfl rfl rfl
      (by decide) rfl,
    h6 mdC4 mpC4 "ST_Contains" "geom" "roads" mC4 "POINT (1 2)" rfl rfl rfl
      (by decide),
    h8 mdC4 mpC4 "geom" "roads" mC4 "LESS" "<" "POINT (1 2)" 10 rfl rfl rfl
      (by decide) rfl,
    h11 mdC4 mpC4 "ST_Intersects" "geom" "roads" mC4 "POINT (3 4)" rfl rfl
      rfl (by decide)⟩

/-! ### C10: compilation writes back into the query document -/

/-- C10: compilation mutates the caller's query document.  With fields
absent or empty the all-fields expansion is written back as the value of
the fields key (and is nonempty as soon as some referenced resource has a
field, so the document changes); and _is_field on a field reference
without an explicit resource writes the uniquely inferred resource name
back into the argument, producing an argument different from the one the
caller supplied. -/
theorem C10_compilation_mutates_query
    (qm : List (String × ResourceMeta)) (mapping : List (String × String))
    (n r : String) (m : ResourceMeta)
    (hinf : getResourcesByFieldName qm n = [r])
    (hm : metaLookup qm mapping r = some m)
    (hf : fieldInResource m n = true) :
    compiledFieldsValue qm none = allFieldsExpansion qm ∧
    compiledFieldsValue qm (some []) = allFieldsExpansion qm ∧
    (∀ p ∈ qm, p.2.fields ≠ [] → allFieldsExpansion qm ≠ []) ∧
    isFieldCheck qm mapping (FilterArg.fieldRef n none) =
      Except.ok (true, FilterArg.fieldRef n (some r)) ∧
    FilterArg.fieldRef n (some r) ≠ FilterArg.fieldRef n none := by
  refine ⟨rfl, rfl, ?_, ?_, by simp⟩
  · intro p hp hne
    obtain ⟨df, hdf⟩ := List.exists_mem_of_ne_nil _ hne
    have hmem : FieldRefNode.obj df.name (some p.1) none ∈
        allFieldsExpansion qm := by
      unfold allFieldsExpansion
      rw [List.mem_flatMap]
      exact ⟨p, hp, List.mem_map_of_mem _ hdf⟩
    exact List.ne_nil_of_mem hmem
  · simp [isFieldCheck, hinf, hm, hf]


/-- C10 witness: the write-back behaviour at a concrete one-resource
query. -/
theorem C10_compilation_mutates_query_witness :
    compiledFieldsValue [("roads", mC10)] none =
      allFieldsExpansion [("roads", mC10)] ∧
    compiledFieldsValue [("roads", mC10)] (some []) =
      allFieldsExpansion [("roads", mC10)] ∧
    (∀ p ∈ [("roads", mC10)], p.2.fields ≠ [] →
      allFieldsExpansion [("roads", mC10)] ≠ []) ∧
    isFieldCheck [("roads", mC10)] [("roads", "roads")]
        (FilterArg.fieldRef "name" none) =
      Except.ok (true, FilterArg.fieldRef "name" (some "roads")) ∧
    FilterArg.fieldRef "name" (some "roads") ≠
      FilterArg.fieldRef "name" none :=
  C10_compilation_mutates_query [("roads", mC10)] [("roads", "roads")]
    "name" "roads" mC10 (by decide) rfl (by decide)

/-! ### C8: shape of the GeoJSON result -/

theorem featureFold_id (pf : List (String × FieldInfo))
    (r : List (String × CellValue)) (acc : Feature) :
    (pf.foldl (featureStep r) acc).id = acc.id := by
  induction pf generalizing acc with
  | nil => rfl
  | cons p t ih =>
      rw [List.foldl_cons, ih]
      unfold featureStep
      split <;> rfl

theorem featureFold_ftype (pf : List (String × FieldInfo))
    (r : List (String × CellValue)) (acc : Feature) :
    (pf.foldl (featureStep r) acc).ftype = acc.ftype := by
  induction pf generalizing acc with
  | nil => rfl
  | cons p t ih =>
      rw [List.foldl_cons, ih]
      unfold featureStep
      split <;> rfl

theorem featureFold_properties (pf : List (String × FieldInfo))
    (r : List (String × CellValue)) (acc : Feature) :
    (pf.foldl (featureStep r) acc).properties =
      acc.properties ++ (pf.filter (fun p => !p.2.is_geom)).map
        (fun p => (p.1, rowGet r p.1)) := by
  induction pf generalizing acc with
  | nil => simp
  | cons p t ih =>
      rw [List.foldl_cons, ih]
      cases hpg : p.2.is_geom <;>
        simp [featureStep, hpg, List.filter_cons]

theorem featureFold_geometry (pf : List (String × FieldInfo))
    (r : List (String × CellValue)) (acc : Feature) :
    (pf.foldl (featureStep r) acc).geometry =
      (pf.filter (fun p => p.2.is_geom)).foldl
        (fun _ p => shapelyWkbLoads (rowGet r p.1)) acc.geometry := by
  induction pf generalizing acc with
  | nil => rfl
  | cons p t ih =>
      rw [List.foldl_cons, ih]
      cases hpg : p.2.is_geom <;>
        simp [featureStep, hpg, List.filter_cons]

theorem buildFeature_geometry (pf : List (String × FieldInfo))
    (g : String × FieldInfo) (fid : Nat) (r : List (String × CellValue))
    (hg : pf.filter (fun p => p.2.is_geom) = [g]) :
    (buildFeature pf fid r).geometry = shapelyWkbLoads (rowGet r g.1) := by
  unfold buildFeature
  rw [featureFold_geometry, hg]
  rfl

theorem buildFeaturesAux_length (pf : List (String × FieldInfo))
    (fid : Nat) (rs : List (List (String × CellValue))) :
    (buildFeaturesAux pf fid rs).length = rs.length := by
  induction rs generalizing fid with
  | nil => rfl
  | cons r t ih => simp [buildFeaturesAux, ih]

theorem buildFeaturesAux_map_id (pf : List (String × FieldInfo))
    (fid : Nat) (rs : List (List (String × CellValue))) :
    (buildFeaturesAux pf fid rs).map Feature.id =
      List.range' (fid + 1) rs.length := by
  induction rs generalizing fid with
  | nil => rfl
  | cons r t ih =>
      have hid : (buildFeature pf (fid + 1) r).id = fid + 1 :=
        featureFold_id pf r _
      simp [buildFeaturesAux, hid, ih, List.range'_succ]

theorem buildFeaturesAux_mem (pf : List (String × FieldInfo))
    (fid : Nat) (rs : List (List (String × CellValue))) (f : Feature)
    (hf : f ∈ buildFeaturesAux pf fid rs) :
    ∃ k r, r ∈ rs ∧ f = buildFeature pf k r := by
  induction rs generalizing fid with
  | nil => cases hf
  | cons r t ih =>
      simp only [buildFeaturesAux, List.mem_cons] at hf
      rcases hf with hf | hf
      · exact ⟨fid + 1, r, List.mem_cons_self r t, hf⟩
      · obtain ⟨k, r2, hr2, he⟩ := ih (fid + 1) hf
        exact ⟨k, r2, List.mem_cons_of_mem r hr2, he⟩

theorem assoc_keys_unique {α β : Type} (l : List (α × β))
    (h : (l.map Prod.fst).Nodup) (p q : α × β) (hp : p ∈ l) (hq : q ∈ l)
    (he : p.1 = q.1) : p = q := by
  induction l with
  | nil => cases hp
  | cons a t ih =>
      rw [List.map_cons, List.nodup_cons] at h
      rcases List.mem_cons.mp hp with hp1 | hp1 <;>
        rcases List.mem_cons.mp hq with hq1 | hq1
      · rw [hp1, hq1]
      · exfalso
        apply h.1
        rw [List.mem_map]
        exact ⟨q, hq1, by rw [← he, hp1]⟩
      · exfalso
        apply h.1
        rw [List.mem_map]
        exact ⟨p, hp1, by rw [he, hq1]⟩
      · exact ih h.2 hp1 hq1


/-- C8 counterexample: with limit 0 the effective limit the code compiles
is 10000, so the database may legally return a row and the query produces
one feature, while min(limit, 10000) = 0 bounds the claimed feature count
by zero; the claimed bound fails as stated for non-positive limits. -/
theorem C8_counterexample :
    parseLimit (some (PyVal.num 0)) = Except.ok 10000 ∧
      (buildFeatures pfC8 [rowC8]).length = 1 ∧
      ¬ ((1 : Int) ≤ min 0 10000) := by
  exact ⟨rfl, rfl, by decide⟩

/-- C8 amended: every feature has id equal to the 1-based index of its row,
type Feature, geometry decoded from the single geometry column, and
properties holding exactly the non-geometry projected fields keyed by
output alias, with the geometry alias absent; the number of features is at
most the effective limit L computed by the code, where L = min(limit,
10000) whenever the given limit is positive and L = 10000 otherwise. -/
theorem C8_geojson_shape (pf : List (String × FieldInfo))
    (records : List (List (String × CellValue))) (ql : Option PyVal)
    (L : Int) (g : String × FieldInfo)
    (hL : parseLimit ql = Except.ok L)
    (hrec : (records.length : Int) ≤ L)
    (hg : pf.filter (fun p => p.2.is_geom) = [g])
    (hnd : (pf.map Prod.fst).Nodup) :
    ((buildFeatures pf records).length : Int) ≤ L ∧
    L ≤ 10000 ∧
    (∀ n : Int, ql = some (PyVal.num n) → 0 < n → L = min n 10000) ∧
    (buildFeatures pf records).map Feature.id =
      List.range' 1 records.length ∧
    (∀ f ∈ buildFeatures pf records, f.ftype = "Feature") ∧
    (∀ f ∈ buildFeatures pf records,
      f.properties.map Prod.fst =
        (pf.filter (fun p => !p.2.is_geom)).map Prod.fst) ∧
    (∀ f ∈ buildFeatures pf records, g.1 ∉ f.properties.map Prod.fst) ∧
    (∀ fid r, (buildFeature pf fid r).geometry =
      shapelyWkbLoads (rowGet r g.1)) := by
  have hgpf : g ∈ pf ∧ g.2.is_geom = true := by
    have : g ∈ pf.filter (fun p => p.2.is_geom) := by
      rw [hg]; exact List.mem_singleton_self g
    simpa using List.mem_filter.mp this
  refine ⟨?_, ?_, ?_, ?_, ?_, ?_, ?_, ?_⟩
  · rw [buildFeatures, buildFeaturesAux_length]
    exact hrec
  · cases ql with
    | none =>
        simp [parseLimit, MAX_RESULT_ROWS] at hL
        omega
    | some v =>
        cases v with
        | num n =>
            simp [parseLimit, MAX_RESULT_ROWS] at hL
            split at hL <;> omega
        | str s => simp [parseLimit] at hL
        | list => simp [parseLimit] at hL
  · intro n hq hn
    rw [hq] at hL
    simp [parseLimit, MAX_RESULT_ROWS] at hL
    split at hL <;> omega
  · rw [buildFeatures, buildFeaturesAux_map_id]
  · intro f hf
    obtain ⟨k, r, _, he⟩ := buildFeaturesAux_mem pf 0 records f hf
    rw [he, buildFeature, featureFold_ftype]
  · intro f hf
    obtain ⟨k, r, _, he⟩ := buildFeaturesAux_mem pf 0 records f hf
    rw [he, buildFeature, featureFold_properties]
    simp
  · intro f hf hmem
    obtain ⟨k, r, _, he⟩ := buildFeaturesAux_mem pf 0 records f hf
    rw [he, buildFeature, featureFold_properties] at hmem
    simp only [List.nil_append, List.map_map, List.mem_map] at hmem
    obtain ⟨p, hp, hpe⟩ := hmem
    have hppf : p ∈ pf ∧ (!p.2.is_geom) = true := List.mem_filter.mp hp
    have : p = g :=
      assoc_keys_unique pf hnd p g hppf.1 hgpf.1 (by simpa using hpe)
    rw [this] at hppf
    rw [hgpf.2] at hppf
    simp at hppf
  · intro fid r
    exact buildFeature_geometry pf g fid r hg

/-- C8 witness: the feature-count bound of the shape theorem at a
one-row result with limit 5. -/
theorem C8_geojson_shape_witness :
    ((buildFeatures pfC8 [rowC8]).length : Int) ≤ 5 :=
  (C8_geojson_shape pfC8 [rowC8] (some (PyVal.num 5)) 5 gC8 rfl
    (by decide) rfl (by decide)).1

end PublicaMundi
